import Mathlib

/-!
Shallow embedding of the GPMF KLV decoder in `src/main.rs`.

Bytes are modelled as `Nat` (values 0..255); a byte slice is a `List Nat`.
The nom-style result `IResult<&[u8], T>` becomes `PResult T`: `.ok rest v`
carries the remaining slice and the value; `.err e` carries a nom error
(`Incomplete`, `Error(kind)` or `Failure(kind)`); `.abort` models a Rust
panic (from `assert_eq!`, `unwrap()` or `panic!`); `.fuel` is the
out-of-fuel marker of the fuelled recursive decoders and is unreachable
for the fuel chosen by the top-level entry point.

Rust `String`s are modelled as their UTF-8 byte lists (UTF-8 encoding is a
bijection between valid byte sequences and strings, so this is faithful);
`f32` values are modelled by their 32-bit big-endian bit patterns as `Nat`
(the decoder never computes with floats, it only transports them).
-/

namespace Gpmf

/-- Error kinds of the nom errors actually produced by this program. -/
inductive ErrKind where
  | tag
deriving DecidableEq

/-- The nom error layer: `Incomplete`, `Error(k)` or `Failure(k)`. -/
inductive PErr where
  | incomplete
  | error (k : ErrKind)
  | failure (k : ErrKind)
deriving DecidableEq

/-- Outcome of a parsing function: success with remaining slice and value,
a nom error, a Rust panic (`.abort`), or fuel exhaustion (`.fuel`). -/
inductive PResult (α : Type) where
  | ok (rest : List Nat) (val : α)
  | err (e : PErr)
  | abort
  | fuel

/-- Sequencing that threads the remaining slice, mirroring nom's `?`. -/
def PResult.bind {α β : Type} (r : PResult α) (f : List Nat → α → PResult β) : PResult β :=
  match r with
  | .ok rest v => f rest v
  | .err e => .err e
  | .abort => .abort
  | .fuel => .fuel

/-- `nom::number::streaming::be_u8`. -/
def beU8 : List Nat → PResult Nat
  | [] => .err .incomplete
  | b :: r => .ok r b

/-- `nom::number::streaming::be_u16`. -/
def beU16 : List Nat → PResult Nat
  | b0 :: b1 :: r => .ok r (b0 * 256 + b1)
  | _ => .err .incomplete

/-- `nom::number::streaming::be_u32`. -/
def beU32 : List Nat → PResult Nat
  | b0 :: b1 :: b2 :: b3 :: r => .ok r (((b0 * 256 + b1) * 256 + b2) * 256 + b3)
  | _ => .err .incomplete

/-- `nom::number::streaming::be_u64`. -/
def beU64 : List Nat → PResult Nat
  | b0 :: b1 :: b2 :: b3 :: b4 :: b5 :: b6 :: b7 :: r =>
      .ok r (((((((b0 * 256 + b1) * 256 + b2) * 256 + b3) * 256 + b4) * 256 + b5) * 256
        + b6) * 256 + b7)
  | _ => .err .incomplete

/-- Two's-complement reinterpretation of an 8-bit value. -/
def toI8 (v : Nat) : Int := if v < 128 then (v : Int) else (v : Int) - 256

/-- Two's-complement reinterpretation of a 16-bit value. -/
def toI16 (v : Nat) : Int := if v < 32768 then (v : Int) else (v : Int) - 65536

/-- Two's-complement reinterpretation of a 32-bit value. -/
def toI32 (v : Nat) : Int := if v < 2147483648 then (v : Int) else (v : Int) - 4294967296

/-- `nom::number::streaming::be_i8`. -/
def beI8 (input : List Nat) : PResult Int :=
  (beU8 input).bind fun rest v => .ok rest (toI8 v)

/-- `nom::number::streaming::be_i16`. -/
def beI16 (input : List Nat) : PResult Int :=
  (beU16 input).bind fun rest v => .ok rest (toI16 v)

/-- `nom::number::streaming::be_i32`. -/
def beI32 (input : List Nat) : PResult Int :=
  (beU32 input).bind fun rest v => .ok rest (toI32 v)

/-- `nom::number::streaming::be_f32`, modelled as the 32-bit bit pattern. -/
def beF32 (input : List Nat) : PResult Nat := beU32 input

/-- `nom::bytes::streaming::take`. -/
def takeP : Nat → List Nat → PResult (List Nat)
  | 0, input => .ok input []
  | _ + 1, [] => .err .incomplete
  | n + 1, b :: bs => (takeP n bs).bind fun rest v => .ok rest (b :: v)

/-- `nom::bytes::streaming::tag`: byte-wise comparison, `Error(Tag)` on a
mismatch, `Incomplete` when the input runs out while still matching. -/
def tagP : List Nat → List Nat → PResult Unit
  | [], input => .ok input ()
  | _ :: _, [] => .err .incomplete
  | t :: ts, b :: bs => if b = t then tagP ts bs else .err (.error .tag)

/-- `assert_eq!(a, b)`: panics (aborts) unless the two values are equal. -/
def assertEqP (a b : Nat) (input : List Nat) : PResult Unit :=
  if a = b then .ok input () else .abort

/-- Whether `b` is a UTF-8 continuation byte (`0x80..=0xBF`). -/
def isCont (b : Nat) : Bool := 128 ≤ b && b ≤ 191

/-- UTF-8 validity of a byte sequence, following the standard rules that
`std::str::from_utf8` enforces. -/
def utf8Valid : List Nat → Bool
  | [] => true
  | b :: rest =>
    if b ≤ 127 then utf8Valid rest
    else if 194 ≤ b && b ≤ 223 then
      match rest with
      | c1 :: r => isCont c1 && utf8Valid r
      | [] => false
    else if b = 224 then
      match rest with
      | c1 :: c2 :: r => (160 ≤ c1 && c1 ≤ 191) && isCont c2 && utf8Valid r
      | _ => false
    else if (225 ≤ b && b ≤ 236) || b = 238 || b = 239 then
      match rest with
      | c1 :: c2 :: r => isCont c1 && isCont c2 && utf8Valid r
      | _ => false
    else if b = 237 then
      match rest with
      | c1 :: c2 :: r => (128 ≤ c1 && c1 ≤ 159) && isCont c2 && utf8Valid r
      | _ => false
    else if b = 240 then
      match rest with
      | c1 :: c2 :: c3 :: r => (144 ≤ c1 && c1 ≤ 191) && isCont c2 && isCont c3 && utf8Valid r
      | _ => false
    else if 241 ≤ b && b ≤ 243 then
      match rest with
      | c1 :: c2 :: c3 :: r => isCont c1 && isCont c2 && isCont c3 && utf8Valid r
      | _ => false
    else if b = 244 then
      match rest with
      | c1 :: c2 :: c3 :: r => (128 ≤ c1 && c1 ≤ 143) && isCont c2 && isCont c3 && utf8Valid r
      | _ => false
    else false

/-- `std::str::from_utf8(bytes).unwrap()`: the byte list itself on success,
a panic on invalid UTF-8. -/
def unwrapUtf8 (bytes input : List Nat) : PResult (List Nat) :=
  if utf8Valid bytes then .ok input bytes else .abort

/-- The padding-skip idiom
`if L % 4 != 0 { take(4 - L % 4)(input)? } else { (input, ..) }`. -/
def skipPad (L : Nat) (input : List Nat) : PResult Unit :=
  if L % 4 ≠ 0 then (takeP (4 - L % 4) input).bind fun rest _ => .ok rest ()
  else .ok input ()

/-- The `Block` enum of `src/main.rs`. `String` fields are modelled as
UTF-8 byte lists, `f32` fields as 32-bit bit patterns, `[u8; 4]` as a
4-element byte list; the Rust `Type(String)` variant is `TypeLabel`. -/
inductive Block where
  | DeviceSource (bs : List Block)
  | DeviceID (id : List Nat)
  | DeviceName (s : List Nat)
  | Stream (bs : List Block)
  | StartTimestamp (v : Nat)
  | TotalSamples (v : Nat)
  | StreamName (s : List Nat)
  | InputOrientation (s : List Nat)
  | UnitsSI (s : List Nat)
  | ScalingFactorS (v : Int)
  | ScalingFactorL (vs : List Int)
  | Temperature (bits : Nat)
  | Acceleration (ms : List (Int × Int × Int))
  | Gyroscope (ms : List (Int × Int × Int))
  | ShutterSpeed (ms : List Nat)
  | WhiteBalance (ms : List Nat)
  | WhiteBalanceRGBGains (ms : List (Nat × Nat × Nat))
  | ISO (ms : List Nat)
  | ImageUniformity (ms : List Nat)
  | TypeLabel (s : List Nat)
  | Custom (name : List Nat) (data : List Nat)
  | GPSF (v : Nat)
  | GPSTimestamp (s : List Nat)
  | GPSP (v : Nat)
  | GPSA (k : List Nat)
  | GPS5 (payload : List Nat)
  | CameraOrientation (ms : List (Int × Int × Int × Int))
  | ImageOrientation (ms : List (Int × Int × Int × Int))
  | GravityVector (ms : List (Int × Int × Int))
  | WindProcessing (ms : List (Nat × Nat))
  | MicrophoneWet (ms : List (Nat × Nat × Nat))
  | AGCAudioLevel (ms : List (Int × Int))
  | MRVFrameSkip (ms : List Int)
  | LRVO (v : Int)
  | LRVS (v : Int)
  | LRVFrameSkip (ms : List Int)

/-- The `for _ in 0..count` loop reading big-endian `i16` triplets
(`parse_accl`, `parse_gyro`, `parse_grav`). -/
def readI16Triples : Nat → List Nat → PResult (List (Int × Int × Int))
  | 0, input => .ok input []
  | n + 1, input =>
    (beI16 input).bind fun input d1 =>
    (beI16 input).bind fun input d2 =>
    (beI16 input).bind fun input d3 =>
    (readI16Triples n input).bind fun input ms =>
    .ok input ((d1, d2, d3) :: ms)

/-- The loop reading big-endian `i16` quartets (`parse_cori`, `parse_iori`). -/
def readI16Quads : Nat → List Nat → PResult (List (Int × Int × Int × Int))
  | 0, input => .ok input []
  | n + 1, input =>
    (beI16 input).bind fun input d1 =>
    (beI16 input).bind fun input d2 =>
    (beI16 input).bind fun input d3 =>
    (beI16 input).bind fun input d4 =>
    (readI16Quads n input).bind fun input ms =>
    .ok input ((d1, d2, d3, d4) :: ms)

/-- The loop reading big-endian `i16` scalars (`parse_mskp`, `parse_lskp`). -/
def readI16s : Nat → List Nat → PResult (List Int)
  | 0, input => .ok input []
  | n + 1, input =>
    (beI16 input).bind fun input v =>
    (readI16s n input).bind fun input ms =>
    .ok input (v :: ms)

/-- The loop reading big-endian `i32` scalars (`parse_scal`, long shape). -/
def readI32s : Nat → List Nat → PResult (List Int)
  | 0, input => .ok input []
  | n + 1, input =>
    (beI32 input).bind fun input v =>
    (readI32s n input).bind fun input ms =>
    .ok input (v :: ms)

/-- The loop reading big-endian `u16` scalars (`parse_wbal`, `parse_isoe`). -/
def readU16s : Nat → List Nat → PResult (List Nat)
  | 0, input => .ok input []
  | n + 1, input =>
    (beU16 input).bind fun input v =>
    (readU16s n input).bind fun input ms =>
    .ok input (v :: ms)

/-- The loop reading `f32` scalars (`parse_shut`, `parse_unif`). -/
def readF32s : Nat → List Nat → PResult (List Nat)
  | 0, input => .ok input []
  | n + 1, input =>
    (beF32 input).bind fun input v =>
    (readF32s n input).bind fun input ms =>
    .ok input (v :: ms)

/-- The loop reading `f32` triplets (`parse_wrgb`). -/
def readF32Triples : Nat → List Nat → PResult (List (Nat × Nat × Nat))
  | 0, input => .ok input []
  | n + 1, input =>
    (beF32 input).bind fun input d1 =>
    (beF32 input).bind fun input d2 =>
    (beF32 input).bind fun input d3 =>
    (readF32Triples n input).bind fun input ms =>
    .ok input ((d1, d2, d3) :: ms)

/-- The loop reading `u8` pairs (`parse_wndm`). -/
def readU8Pairs : Nat → List Nat → PResult (List (Nat × Nat))
  | 0, input => .ok input []
  | n + 1, input =>
    (beU8 input).bind fun input a =>
    (beU8 input).bind fun input b =>
    (readU8Pairs n input).bind fun input ms =>
    .ok input ((a, b) :: ms)

/-- The loop reading `u8` triples (`parse_mwet`). -/
def readU8Triples : Nat → List Nat → PResult (List (Nat × Nat × Nat))
  | 0, input => .ok input []
  | n + 1, input =>
    (beU8 input).bind fun input a =>
    (beU8 input).bind fun input b =>
    (beU8 input).bind fun input c =>
    (readU8Triples n input).bind fun input ms =>
    .ok input ((a, b, c) :: ms)

/-- The loop reading `i8` pairs (`parse_aalp`). -/
def readI8Pairs : Nat → List Nat → PResult (List (Int × Int))
  | 0, input => .ok input []
  | n + 1, input =>
    (beI8 input).bind fun input a =>
    (beI8 input).bind fun input b =>
    (readI8Pairs n input).bind fun input ms =>
    .ok input ((a, b) :: ms)

/-- `parse_dvid`: tag `'L'` (76), `assert_eq!(size, 4)`,
`assert_eq!(count, 1)`, then 4 raw bytes. -/
def parse_dvid (input : List Nat) : PResult Block :=
  (tagP [76] input).bind fun input _ =>
  (beU8 input).bind fun input size =>
  (assertEqP size 4 input).bind fun input _ =>
  (beU16 input).bind fun input count =>
  (assertEqP count 1 input).bind fun input _ =>
  (takeP (size * count) input).bind fun input device_id =>
  .ok input (.DeviceID device_id)

/-- `parse_dvnm`: tag `'c'` (99), `size*count` text bytes,
`from_utf8(..).unwrap()`, then padding skip on the string length. -/
def parse_dvnm (input : List Nat) : PResult Block :=
  (tagP [99] input).bind fun input _ =>
  (beU8 input).bind fun input size =>
  (beU16 input).bind fun input count =>
  (takeP (size * count) input).bind fun input device_name =>
  (unwrapUtf8 device_name input).bind fun input device_name =>
  (skipPad (size * count) input).bind fun input _ =>
  .ok input (.DeviceName device_name)

/-- `parse_stmp`: tag `'J'` (74), `assert_eq!(size, 8)`,
`assert_eq!(count, 1)`, then one big-endian `u64`. -/
def parse_stmp (input : List Nat) : PResult Block :=
  (tagP [74] input).bind fun input _ =>
  (beU8 input).bind fun input size =>
  (assertEqP size 8 input).bind fun input _ =>
  (beU16 input).bind fun input count =>
  (assertEqP count 1 input).bind fun input _ =>
  (beU64 input).bind fun input v =>
  .ok input (.StartTimestamp v)

/-- `parse_tsmp`: tag `'L'` (76), `assert_eq!(size, 4)`,
`assert_eq!(count, 1)`, then one big-endian `u32`. -/
def parse_tsmp (input : List Nat) : PResult Block :=
  (tagP [76] input).bind fun input _ =>
  (beU8 input).bind fun input size =>
  (assertEqP size 4 input).bind fun input _ =>
  (beU16 input).bind fun input count =>
  (assertEqP count 1 input).bind fun input _ =>
  (beU32 input).bind fun input v =>
  .ok input (.TotalSamples v)

/-- `parse_stnm`: like `parse_dvnm` but produces `StreamName`. -/
def parse_stnm (input : List Nat) : PResult Block :=
  (tagP [99] input).bind fun input _ =>
  (beU8 input).bind fun input size =>
  (beU16 input).bind fun input count =>
  (takeP (size * count) input).bind fun input stream_name =>
  (unwrapUtf8 stream_name input).bind fun input stream_name =>
  (skipPad (size * count) input).bind fun input _ =>
  .ok input (.StreamName stream_name)

/-- `parse_orin`: like `parse_dvnm` but produces `InputOrientation`. -/
def parse_orin (input : List Nat) : PResult Block :=
  (tagP [99] input).bind fun input _ =>
  (beU8 input).bind fun input size =>
  (beU16 input).bind fun input count =>
  (takeP (size * count) input).bind fun input orientation =>
  (unwrapUtf8 orientation input).bind fun input orientation =>
  (skipPad (size * count) input).bind fun input _ =>
  .ok input (.InputOrientation orientation)

/-- The body of the `parse_siun` byte-fixup loop: every byte equal to
`0xb2` (178), at any position, is replaced by `b"2"[0]` (50). -/
def substB2 (b : Nat) : Nat := if b = 178 then 50 else b

/-- `parse_siun`: tag `'c'` (99), `size*count` text bytes, the `0xb2`
fixup loop over the whole payload, `from_utf8(..).unwrap()`, then padding
skip on the string length. -/
def parse_siun (input : List Nat) : PResult Block :=
  (tagP [99] input).bind fun input _ =>
  (beU8 input).bind fun input size =>
  (beU16 input).bind fun input count =>
  (takeP (size * count) input).bind fun input si_units =>
  (unwrapUtf8 (si_units.map substB2) input).bind fun input si_units =>
  (skipPad (size * count) input).bind fun input _ =>
  .ok input (.UnitsSI si_units)

/-- `parse_scal`: takes one type byte; `'s'` (115) gives a single `i16`
(with `assert_eq!(size, 2)`, `assert_eq!(count, 1)` and a 2-byte skip);
`'l'` (108) gives `count` big-endian `i32`s (with `assert_eq!(size, 4)`);
any other byte hits the `panic!` arm. -/
def parse_scal (input : List Nat) : PResult Block :=
  (takeP 1 input).bind fun input data_type =>
  if data_type = [115] then
    (beU8 input).bind fun input size =>
    (assertEqP size 2 input).bind fun input _ =>
    (beU16 input).bind fun input count =>
    (assertEqP count 1 input).bind fun input _ =>
    (beI16 input).bind fun input v =>
    (takeP 2 input).bind fun input _ =>
    .ok input (.ScalingFactorS v)
  else if data_type = [108] then
    (beU8 input).bind fun input size =>
    (assertEqP size 4 input).bind fun input _ =>
    (beU16 input).bind fun input count =>
    (readI32s count input).bind fun input vs =>
    .ok input (.ScalingFactorL vs)
  else .abort

/-- `parse_tmpc`: tag `'f'` (102), `assert_eq!(size, 4)`,
`assert_eq!(count, 1)`, then one `f32`. -/
def parse_tmpc (input : List Nat) : PResult Block :=
  (tagP [102] input).bind fun input _ =>
  (beU8 input).bind fun input size =>
  (assertEqP size 4 input).bind fun input _ =>
  (beU16 input).bind fun input count =>
  (assertEqP count 1 input).bind fun input _ =>
  (beF32 input).bind fun input v =>
  .ok input (.Temperature v)

/-- `parse_accl`: tag `'s'` (115), `assert_eq!(size, 6)`, `count` `i16`
triplets, then padding skip on `6 * measurements.len()`. -/
def parse_accl (input : List Nat) : PResult Block :=
  (tagP [115] input).bind fun input _ =>
  (beU8 input).bind fun input size =>
  (assertEqP size 6 input).bind fun input _ =>
  (beU16 input).bind fun input count =>
  (readI16Triples count input).bind fun input ms =>
  (skipPad (6 * ms.length) input).bind fun input _ =>
  .ok input (.Acceleration ms)

/-- `parse_gyro`: identical shape to `parse_accl`, produces `Gyroscope`. -/
def parse_gyro (input : List Nat) : PResult Block :=
  (tagP [115] input).bind fun input _ =>
  (beU8 input).bind fun input size =>
  (assertEqP size 6 input).bind fun input _ =>
  (beU16 input).bind fun input count =>
  (readI16Triples count input).bind fun input ms =>
  (skipPad (6 * ms.length) input).bind fun input _ =>
  .ok input (.Gyroscope ms)

/-- `parse_shut`: tag `'f'` (102), `assert_eq!(size, 4)`, `count` `f32`s —
but the padding skip uses `data_length = 6 * measurements.len()` even
though each element is 4 bytes (the `6` is copied from the triplet
decoders). -/
def parse_shut (input : List Nat) : PResult Block :=
  (tagP [102] input).bind fun input _ =>
  (beU8 input).bind fun input size =>
  (assertEqP size 4 input).bind fun input _ =>
  (beU16 input).bind fun input count =>
  (readF32s count input).bind fun input ms =>
  (skipPad (6 * ms.length) input).bind fun input _ =>
  .ok input (.ShutterSpeed ms)

/-- `parse_wbal`: tag `'S'` (83), `assert_eq!(size, 2)`, `count` `u16`s,
padding skip on `6 * measurements.len()` (as written in the source). -/
def parse_wbal (input : List Nat) : PResult Block :=
  (tagP [83] input).bind fun input _ =>
  (beU8 input).bind fun input size =>
  (assertEqP size 2 input).bind fun input _ =>
  (beU16 input).bind fun input count =>
  (readU16s count input).bind fun input ms =>
  (skipPad (6 * ms.length) input).bind fun input _ =>
  .ok input (.WhiteBalance ms)

/-- `parse_wrgb`: tag `'f'` (102), `assert_eq!(size, 12)`, `count` `f32`
triplets, padding skip on `12 * measurements.len()`. -/
def parse_wrgb (input : List Nat) : PResult Block :=
  (tagP [102] input).bind fun input _ =>
  (beU8 input).bind fun input size =>
  (assertEqP size 12 input).bind fun input _ =>
  (beU16 input).bind fun input count =>
  (readF32Triples count input).bind fun input ms =>
  (skipPad (12 * ms.length) input).bind fun input _ =>
  .ok input (.WhiteBalanceRGBGains ms)

/-- `parse_isoe`: tag `'S'` (83), `assert_eq!(size, 2)`, `count` `u16`s,
padding skip on `6 * measurements.len()` (as written in the source). -/
def parse_isoe (input : List Nat) : PResult Block :=
  (tagP [83] input).bind fun input _ =>
  (beU8 input).bind fun input size =>
  (assertEqP size 2 input).bind fun input _ =>
  (beU16 input).bind fun input count =>
  (readU16s count input).bind fun input ms =>
  (skipPad (6 * ms.length) input).bind fun input _ =>
  .ok input (.ISO ms)

/-- `parse_unif`: tag `'f'` (102), `assert_eq!(size, 4)`, `count` `f32`s,
padding skip on `6 * measurements.len()` (as written in the source). -/
def parse_unif (input : List Nat) : PResult Block :=
  (tagP [102] input).bind fun input _ =>
  (beU8 input).bind fun input size =>
  (assertEqP size 4 input).bind fun input _ =>
  (beU16 input).bind fun input count =>
  (readF32s count input).bind fun input ms =>
  (skipPad (6 * ms.length) input).bind fun input _ =>
  .ok input (.ImageUniformity ms)

/-- `parse_type`: like `parse_dvnm` but produces the `Type` variant
(`TypeLabel` here). -/
def parse_type (input : List Nat) : PResult Block :=
  (tagP [99] input).bind fun input _ =>
  (beU8 input).bind fun input size =>
  (beU16 input).bind fun input count =>
  (takeP (size * count) input).bind fun input label =>
  (unwrapUtf8 label input).bind fun input label =>
  (skipPad (size * count) input).bind fun input _ =>
  .ok input (.TypeLabel label)

/-- `parse_custom`: first `from_utf8(type_name).unwrap()` (a panic on a
non-UTF-8 key), then tag `'?'` (63), `size*count` opaque bytes and a
padding skip on that length. -/
def parse_custom (type_name input : List Nat) : PResult Block :=
  (unwrapUtf8 type_name input).bind fun input type_name =>
  (tagP [63] input).bind fun input _ =>
  (beU8 input).bind fun input size =>
  (beU16 input).bind fun input count =>
  (takeP (size * count) input).bind fun input data_bytes =>
  (skipPad (size * count) input).bind fun input _ =>
  .ok input (.Custom type_name data_bytes)

/-- `parse_gpsf`: tag `'L'` (76), `assert_eq!(size, 4)`,
`assert_eq!(count, 1)`, then one big-endian `u32`. -/
def parse_gpsf (input : List Nat) : PResult Block :=
  (tagP [76] input).bind fun input _ =>
  (beU8 input).bind fun input size =>
  (assertEqP size 4 input).bind fun input _ =>
  (beU16 input).bind fun input count =>
  (assertEqP count 1 input).bind fun input _ =>
  (beU32 input).bind fun input v =>
  .ok input (.GPSF v)

/-- `parse_gpsu`: tag `'U'` (85), `assert_eq!(count, 1)`, `size*count`
text bytes, `unwrap`, padding skip on the string length. -/
def parse_gpsu (input : List Nat) : PResult Block :=
  (tagP [85] input).bind fun input _ =>
  (beU8 input).bind fun input size =>
  (beU16 input).bind fun input count =>
  (assertEqP count 1 input).bind fun input _ =>
  (takeP (size * count) input).bind fun input ts =>
  (unwrapUtf8 ts input).bind fun input ts =>
  (skipPad (size * count) input).bind fun input _ =>
  .ok input (.GPSTimestamp ts)

/-- `parse_gpsp`: tag `'S'` (83), `assert_eq!(size, 2)`,
`assert_eq!(count, 1)`, one big-endian `u16`, then `tag(&[0, 0])` — the
two padding bytes are required to be zero, not skipped blindly. -/
def parse_gpsp (input : List Nat) : PResult Block :=
  (tagP [83] input).bind fun input _ =>
  (beU8 input).bind fun input size =>
  (assertEqP size 2 input).bind fun input _ =>
  (beU16 input).bind fun input count =>
  (assertEqP count 1 input).bind fun input _ =>
  (beU16 input).bind fun input v =>
  (tagP [0, 0] input).bind fun input _ =>
  .ok input (.GPSP v)

/-- `parse_gpsa`: tag `'F'` (70), `assert_eq!(size, 4)`,
`assert_eq!(count, 1)`, then 4 raw bytes. -/
def parse_gpsa (input : List Nat) : PResult Block :=
  (tagP [70] input).bind fun input _ =>
  (beU8 input).bind fun input size =>
  (assertEqP size 4 input).bind fun input _ =>
  (beU16 input).bind fun input count =>
  (assertEqP count 1 input).bind fun input _ =>
  (takeP 4 input).bind fun input key =>
  .ok input (.GPSA key)

/-- `parse_gps5`: tag `'l'` (108), then `size*count` raw bytes with no
padding skip at all. -/
def parse_gps5 (input : List Nat) : PResult Block :=
  (tagP [108] input).bind fun input _ =>
  (beU8 input).bind fun input size =>
  (beU16 input).bind fun input count =>
  (takeP (size * count) input).bind fun input payload =>
  .ok input (.GPS5 payload)

/-- `parse_cori`: tag `'s'` (115), `assert_eq!(size, 8)`, `count` `i16`
quartets, no padding skip. -/
def parse_cori (input : List Nat) : PResult Block :=
  (tagP [115] input).bind fun input _ =>
  (beU8 input).bind fun input size =>
  (assertEqP size 8 input).bind fun input _ =>
  (beU16 input).bind fun input count =>
  (readI16Quads count input).bind fun input ms =>
  .ok input (.CameraOrientation ms)

/-- `parse_iori`: identical shape to `parse_cori`, produces
`ImageOrientation`. -/
def parse_iori (input : List Nat) : PResult Block :=
  (tagP [115] input).bind fun input _ =>
  (beU8 input).bind fun input size =>
  (assertEqP size 8 input).bind fun input _ =>
  (beU16 input).bind fun input count =>
  (readI16Quads count input).bind fun input ms =>
  .ok input (.ImageOrientation ms)

/-- `parse_grav`: identical shape to `parse_accl`, produces
`GravityVector`. -/
def parse_grav (input : List Nat) : PResult Block :=
  (tagP [115] input).bind fun input _ =>
  (beU8 input).bind fun input size =>
  (assertEqP size 6 input).bind fun input _ =>
  (beU16 input).bind fun input count =>
  (readI16Triples count input).bind fun input ms =>
  (skipPad (6 * ms.length) input).bind fun input _ =>
  .ok input (.GravityVector ms)

/-- `parse_wndm`: tag `'B'` (66), `assert_eq!(size, 2)`, `count` byte
pairs, padding skip on `size*count`. -/
def parse_wndm (input : List Nat) : PResult Block :=
  (tagP [66] input).bind fun input _ =>
  (beU8 input).bind fun input size =>
  (assertEqP size 2 input).bind fun input _ =>
  (beU16 input).bind fun input count =>
  (readU8Pairs count input).bind fun input ms =>
  (skipPad (size * count) input).bind fun input _ =>
  .ok input (.WindProcessing ms)

/-- `parse_mwet`: tag `'B'` (66), `assert_eq!(size, 3)`, `count` byte
triples, padding skip on `size*count`. -/
def parse_mwet (input : List Nat) : PResult Block :=
  (tagP [66] input).bind fun input _ =>
  (beU8 input).bind fun input size =>
  (assertEqP size 3 input).bind fun input _ =>
  (beU16 input).bind fun input count =>
  (readU8Triples count input).bind fun input ms =>
  (skipPad (size * count) input).bind fun input _ =>
  .ok input (.MicrophoneWet ms)

/-- `parse_aalp`: tag `'b'` (98), `assert_eq!(size, 2)`, `count` `i8`
pairs, padding skip on `size*count`. -/
def parse_aalp (input : List Nat) : PResult Block :=
  (tagP [98] input).bind fun input _ =>
  (beU8 input).bind fun input size =>
  (assertEqP size 2 input).bind fun input _ =>
  (beU16 input).bind fun input count =>
  (readI8Pairs count input).bind fun input ms =>
  (skipPad (size * count) input).bind fun input _ =>
  .ok input (.AGCAudioLevel ms)

/-- `parse_mskp`: tag `'s'` (115), `assert_eq!(size, 2)`, `count` `i16`
scalars, padding skip on `size*count`. -/
def parse_mskp (input : List Nat) : PResult Block :=
  (tagP [115] input).bind fun input _ =>
  (beU8 input).bind fun input size =>
  (assertEqP size 2 input).bind fun input _ =>
  (beU16 input).bind fun input count =>
  (readI16s count input).bind fun input ms =>
  (skipPad (size * count) input).bind fun input _ =>
  .ok input (.MRVFrameSkip ms)

/-- `parse_lrvo`: tag `'b'` (98), `assert_eq!(size, 1)`,
`assert_eq!(count, 1)`, one `i8`, then a 3-byte skip. -/
def parse_lrvo (input : List Nat) : PResult Block :=
  (tagP [98] input).bind fun input _ =>
  (beU8 input).bind fun input size =>
  (assertEqP size 1 input).bind fun input _ =>
  (beU16 input).bind fun input count =>
  (assertEqP count 1 input).bind fun input _ =>
  (beI8 input).bind fun input v =>
  (takeP 3 input).bind fun input _ =>
  .ok input (.LRVO v)

/-- `parse_lrvs`: identical shape to `parse_lrvo`, produces `LRVS`. -/
def parse_lrvs (input : List Nat) : PResult Block :=
  (tagP [98] input).bind fun input _ =>
  (beU8 input).bind fun input size =>
  (assertEqP size 1 input).bind fun input _ =>
  (beU16 input).bind fun input count =>
  (assertEqP count 1 input).bind fun input _ =>
  (beI8 input).bind fun input v =>
  (takeP 3 input).bind fun input _ =>
  .ok input (.LRVS v)

/-- `parse_lskp`: identical shape to `parse_mskp`, produces
`LRVFrameSkip`. -/
def parse_lskp (input : List Nat) : PResult Block :=
  (tagP [115] input).bind fun input _ =>
  (beU8 input).bind fun input size =>
  (assertEqP size 2 input).bind fun input _ =>
  (beU16 input).bind fun input count =>
  (readI16s count input).bind fun input ms =>
  (skipPad (size * count) input).bind fun input _ =>
  .ok input (.LRVFrameSkip ms)

/-- `parse_devc`, parameterised over the record-sequence decoder it
recursively invokes: tag `[0x0]`, `size*count` bytes sliced as the nested
sub-buffer, the recursive sequence decode, then
`assert_eq!(trailing_bytes.len(), 0)` (a panic when trailing bytes
remain). -/
def parse_devcF (pseq : List Nat → PResult (List Block)) (input : List Nat) : PResult Block :=
  (tagP [0] input).bind fun input _ =>
  (beU8 input).bind fun input size =>
  (beU16 input).bind fun input count =>
  (takeP (size * count) input).bind fun input block_bytes =>
  match pseq block_bytes with
  | .ok trailing_bytes sub_blocks =>
      if trailing_bytes = [] then .ok input (.DeviceSource sub_blocks) else .abort
  | .err e => .err e
  | .abort => .abort
  | .fuel => .fuel

/-- `parse_strm`: identical shape to `parse_devc`, produces `Stream`. -/
def parse_strmF (pseq : List Nat → PResult (List Block)) (input : List Nat) : PResult Block :=
  (tagP [0] input).bind fun input _ =>
  (beU8 input).bind fun input size =>
  (beU16 input).bind fun input count =>
  (takeP (size * count) input).bind fun input block_bytes =>
  match pseq block_bytes with
  | .ok trailing_bytes sub_blocks =>
      if trailing_bytes = [] then .ok input (.Stream sub_blocks) else .abort
  | .err e => .err e
  | .abort => .abort
  | .fuel => .fuel

/-- The fallback arm of `parse_block`'s match: run `parse_custom` on the
unknown key; any `Err` (including `Incomplete`, and in particular the tag
mismatch when the type byte is not `'?'`) is replaced by
`nom::Err::Failure(Error::new(input, ErrorKind::Tag))` — a hard failure.
A panic inside `parse_custom` propagates as a panic. -/
def fallbackArm (key input : List Nat) : PResult Block :=
  match parse_custom key input with
  | .ok rest b => .ok rest b
  | .err _ => .err (.failure .tag)
  | .abort => .abort
  | .fuel => .fuel

/-- The loop of `parser`: repeatedly decode one block with `pb`, push it,
and stop exactly when the remaining input is empty, returning the empty
remainder with the collected blocks. Errors of the single-block decode
abort the whole sequence. The fuel argument bounds the number of loop
iterations and is chosen large enough by the callers. -/
def parserCore (pb : List Nat → PResult Block) : Nat → List Nat → PResult (List Block)
  | 0, _ => .fuel
  | n + 1, input =>
    match pb input with
    | .ok inp b =>
        if inp = [] then .ok [] [b]
        else
          match parserCore pb n inp with
          | .ok rest bs => .ok rest (b :: bs)
          | .err e => .err e
          | .abort => .abort
          | .fuel => .fuel
    | .err e => .err e
    | .abort => .abort
    | .fuel => .fuel

/-- The known 4-byte type keys of `parse_block`'s match, in source
order: DEVC, DVID, DVNM, STRM, STMP, TSMP, STNM, ORIN, SIUN, UNIT, SCAL,
TMPC, ACCL, GYRO, SHUT, WBAL, WRGB, ISOE, UNIF, TYPE, GPSF, GPSU, GPSP,
GPSA, GPS5, CORI, IORI, GRAV, WNDM, MWET, AALP, MSKP, LRVO, LRVS, LSKP. -/
def kDEVC : List Nat := [68, 69, 86, 67]

/-- Key `DVID`. -/
def kDVID : List Nat := [68, 86, 73, 68]

/-- Key `DVNM`. -/
def kDVNM : List Nat := [68, 86, 78, 77]

/-- Key `STRM`. -/
def kSTRM : List Nat := [83, 84, 82, 77]

/-- Key `STMP`. -/
def kSTMP : List Nat := [83, 84, 77, 80]

/-- Key `TSMP`. -/
def kTSMP : List Nat := [84, 83, 77, 80]

/-- Key `STNM`. -/
def kSTNM : List Nat := [83, 84, 78, 77]

/-- Key `ORIN`. -/
def kORIN : List Nat := [79, 82, 73, 78]

/-- Key `SIUN`. -/
def kSIUN : List Nat := [83, 73, 85, 78]

/-- Key `UNIT`. -/
def kUNIT : List Nat := [85, 78, 73, 84]

/-- Key `SCAL`. -/
def kSCAL : List Nat := [83, 67, 65, 76]

/-- Key `TMPC`. -/
def kTMPC : List Nat := [84, 77, 80, 67]

/-- Key `ACCL`. -/
def kACCL : List Nat := [65, 67, 67, 76]

/-- Key `GYRO`. -/
def kGYRO : List Nat := [71, 89, 82, 79]

/-- Key `SHUT`. -/
def kSHUT : List Nat := [83, 72, 85, 84]

/-- Key `WBAL`. -/
def kWBAL : List Nat := [87, 66, 65, 76]

/-- Key `WRGB`. -/
def kWRGB : List Nat := [87, 82, 71, 66]

/-- Key `ISOE`. -/
def kISOE : List Nat := [73, 83, 79, 69]

/-- Key `UNIF`. -/
def kUNIF : List Nat := [85, 78, 73, 70]

/-- Key `TYPE`. -/
def kTYPE : List Nat := [84, 89, 80, 69]

/-- Key `GPSF`. -/
def kGPSF : List Nat := [71, 80, 83, 70]

/-- Key `GPSU`. -/
def kGPSU : List Nat := [71, 80, 83, 85]

/-- Key `GPSP`. -/
def kGPSP : List Nat := [71, 80, 83, 80]

/-- Key `GPSA`. -/
def kGPSA : List Nat := [71, 80, 83, 65]

/-- Key `GPS5`. -/
def kGPS5 : List Nat := [71, 80, 83, 53]

/-- Key `CORI`. -/
def kCORI : List Nat := [67, 79, 82, 73]

/-- Key `IORI`. -/
def kIORI : List Nat := [73, 79, 82, 73]

/-- Key `GRAV`. -/
def kGRAV : List Nat := [71, 82, 65, 86]

/-- Key `WNDM`. -/
def kWNDM : List Nat := [87, 78, 68, 77]

/-- Key `MWET`. -/
def kMWET : List Nat := [77, 87, 69, 84]

/-- Key `AALP`. -/
def kAALP : List Nat := [65, 65, 76, 80]

/-- Key `MSKP`. -/
def kMSKP : List Nat := [77, 83, 75, 80]

/-- Key `LRVO`. -/
def kLRVO : List Nat := [76, 82, 86, 79]

/-- Key `LRVS`. -/
def kLRVS : List Nat := [76, 82, 86, 83]

/-- Key `LSKP`. -/
def kLSKP : List Nat := [76, 83, 75, 80]

/-- Whether a 4-byte key has an arm in `parse_block`'s match (anything
else falls through to the `parse_custom` fallback). -/
def knownKey (key : List Nat) : Bool :=
  key = kDEVC || key = kDVID || key = kDVNM || key = kSTRM || key = kSTMP ||
  key = kTSMP || key = kSTNM || key = kORIN || key = kSIUN || key = kUNIT ||
  key = kSCAL || key = kTMPC || key = kACCL || key = kGYRO || key = kSHUT ||
  key = kWBAL || key = kWRGB || key = kISOE || key = kUNIF || key = kTYPE ||
  key = kGPSF || key = kGPSU || key = kGPSP || key = kGPSA || key = kGPS5 ||
  key = kCORI || key = kIORI || key = kGRAV || key = kWNDM || key = kMWET ||
  key = kAALP || key = kMSKP || key = kLRVO || key = kLRVS || key = kLSKP

/-- `parse_block`, fuelled: take the 4-byte type key and dispatch on it;
the two grouping keys recurse through `parserCore` with one fuel level
less, every other known key calls its leaf decoder, and an unknown key
goes to the fallback arm. -/
def parse_blockF : Nat → List Nat → PResult Block
  | 0, _ => .fuel
  | n + 1, input =>
    (takeP 4 input).bind fun input key =>
    if key = kDEVC then parse_devcF (parserCore (parse_blockF n) (n + 1)) input
    else if key = kDVID then parse_dvid input
    else if key = kDVNM then parse_dvnm input
    else if key = kSTRM then parse_strmF (parserCore (parse_blockF n) (n + 1)) input
    else if key = kSTMP then parse_stmp input
    else if key = kTSMP then parse_tsmp input
    else if key = kSTNM then parse_stnm input
    else if key = kORIN then parse_orin input
    else if key = kSIUN then parse_siun input
    else if key = kUNIT then parse_siun input
    else if key = kSCAL then parse_scal input
    else if key = kTMPC then parse_tmpc input
    else if key = kACCL then parse_accl input
    else if key = kGYRO then parse_gyro input
    else if key = kSHUT then parse_shut input
    else if key = kWBAL then parse_wbal input
    else if key = kWRGB then parse_wrgb input
    else if key = kISOE then parse_isoe input
    else if key = kUNIF then parse_unif input
    else if key = kTYPE then parse_type input
    else if key = kGPSF then parse_gpsf input
    else if key = kGPSU then parse_gpsu input
    else if key = kGPSP then parse_gpsp input
    else if key = kGPSA then parse_gpsa input
    else if key = kGPS5 then parse_gps5 input
    else if key = kCORI then parse_cori input
    else if key = kIORI then parse_iori input
    else if key = kGRAV then parse_grav input
    else if key = kWNDM then parse_wndm input
    else if key = kMWET then parse_mwet input
    else if key = kAALP then parse_aalp input
    else if key = kMSKP then parse_mskp input
    else if key = kLRVO then parse_lrvo input
    else if key = kLRVS then parse_lrvs input
    else if key = kLSKP then parse_lskp input
    else fallbackArm key input

/-- The top-level `parser`, with fuel `input.length + 1` — ample, since
every successfully decoded block consumes at least 8 bytes and every
container nesting level consumes at least 8 further bytes. -/
def parser (input : List Nat) : PResult (List Block) :=
  parserCore (parse_blockF (input.length + 1)) (input.length + 1) input

/-- The list of big-endian `i32`s an aligned byte list encodes (4 bytes
per element), used to state the long shape of `parse_scal`. -/
def i32ListOf : List Nat → List Int
  | b0 :: b1 :: b2 :: b3 :: r =>
      toI32 (((b0 * 256 + b1) * 256 + b2) * 256 + b3) :: i32ListOf r
  | _ => []

theorem takeP_append (xs rest : List Nat) : takeP xs.length (xs ++ rest) = .ok rest xs := by
  induction xs with
  | nil => rfl
  | cons b bs ih => simp [takeP, List.length_cons, ih, PResult.bind]

theorem takeP_exact {n : Nat} (xs rest : List Nat) (h : n = xs.length) :
    takeP n (xs ++ rest) = .ok rest xs := by
  subst h; exact takeP_append xs rest

theorem takeP_ok {n : Nat} {l r v : List Nat} (h : takeP n l = .ok r v) :
    v = l.take n ∧ r = l.drop n ∧ n ≤ l.length := by
  induction n generalizing l r v with
  | zero =>
      simp only [takeP] at h
      cases h
      simp
  | succ m ih =>
      cases l with
      | nil => simp [takeP] at h
      | cons b bs =>
          simp only [takeP, PResult.bind] at h
          cases hm : takeP m bs with
          | ok r' v' =>
              rw [hm] at h
              cases h
              obtain ⟨h1, h2, h3⟩ := ih hm
              subst h1; subst h2
              simp [List.take, List.drop, Nat.succ_le_succ h3]
          | err e => rw [hm] at h; cases h
          | abort => rw [hm] at h; cases h
          | fuel => rw [hm] at h; cases h

theorem skipPad_append {L : Nat} (pad rest : List Nat)
    (h : pad.length = (4 - L % 4) % 4) :
    skipPad L (pad ++ rest) = .ok rest () := by
  by_cases h4 : L % 4 = 0
  · have hh : pad = [] := by
      have : pad.length = 0 := by rw [h, h4]
      exact List.length_eq_zero.mp this
    subst hh
    simp [skipPad, h4]
  · have hlt : L % 4 < 4 := Nat.mod_lt _ (by norm_num)
    have hlen : 4 - L % 4 = pad.length := by omega
    simp only [skipPad, if_pos h4]
    rw [hlen, takeP_append pad rest]
    rfl

theorem readI32s_append {n : Nat} (payload rest : List Nat)
    (h : payload.length = 4 * n) :
    readI32s n (payload ++ rest) = .ok rest (i32ListOf payload) := by
  induction n generalizing payload with
  | zero =>
      have : payload = [] := List.length_eq_zero.mp (by omega)
      subst this
      rfl
  | succ m ih =>
      match payload, h with
      | b0 :: b1 :: b2 :: b3 :: p, h =>
          have hp : p.length = 4 * m := by
            simp only [List.length_cons] at h
            omega
          simp only [readI32s, List.cons_append, beI32, beU32, PResult.bind, ih p hp,
            i32ListOf]

theorem parserCore_ok_rest_nil {pb : List Nat → PResult Block} {n : Nat}
    {input rest : List Nat} {bs : List Block}
    (h : parserCore pb n input = .ok rest bs) : rest = [] := by
  induction n generalizing input rest bs with
  | zero => simp [parserCore] at h
  | succ m ih =>
      simp only [parserCore] at h
      cases hpb : pb input with
      | ok inp b =>
          rw [hpb] at h
          dsimp only at h
          by_cases hin : inp = []
          · rw [if_pos hin] at h
            cases h
            rfl
          · rw [if_neg hin] at h
            cases hrec : parserCore pb m inp with
            | ok r bs' => rw [hrec] at h; cases h; exact ih hrec
            | err e => rw [hrec] at h; cases h
            | abort => rw [hrec] at h; cases h
            | fuel => rw [hrec] at h; cases h
      | err e => rw [hpb] at h; cases h
      | abort => rw [hpb] at h; cases h
      | fuel => rw [hpb] at h; cases h

theorem parse_blockF_unknown (n : Nat) (key rest : List Nat) (h4 : key.length = 4)
    (hk : knownKey key = false) :
    parse_blockF (n + 1) (key ++ rest) = fallbackArm key rest := by
  have ht : takeP 4 (key ++ rest) = .ok rest key := takeP_exact key rest h4.symm
  simp only [knownKey, Bool.or_eq_false_iff, decide_eq_false_iff_not] at hk
  obtain ⟨⟨⟨⟨⟨⟨⟨⟨⟨⟨⟨⟨⟨⟨⟨⟨⟨⟨⟨⟨⟨⟨⟨⟨⟨⟨⟨⟨⟨⟨⟨⟨⟨⟨k01, k02⟩, k03⟩, k04⟩, k05⟩, k06⟩,
    k07⟩, k08⟩, k09⟩, k10⟩, k11⟩, k12⟩, k13⟩, k14⟩, k15⟩, k16⟩, k17⟩, k18⟩, k19⟩,
    k20⟩, k21⟩, k22⟩, k23⟩, k24⟩, k25⟩, k26⟩, k27⟩, k28⟩, k29⟩, k30⟩, k31⟩, k32⟩,
    k33⟩, k34⟩, k35⟩ := hk
  simp only [parse_blockF, ht, PResult.bind, if_neg k01, if_neg k02, if_neg k03,
    if_neg k04, if_neg k05, if_neg k06, if_neg k07, if_neg k08, if_neg k09,
    if_neg k10, if_neg k11, if_neg k12, if_neg k13, if_neg k14, if_neg k15,
    if_neg k16, if_neg k17, if_neg k18, if_neg k19, if_neg k20, if_neg k21,
    if_neg k22, if_neg k23, if_neg k24, if_neg k25, if_neg k26, if_neg k27,
    if_neg k28, if_neg k29, if_neg k30, if_neg k31, if_neg k32, if_neg k33,
    if_neg k34, if_neg k35]

theorem parse_custom_ok (key : List Nat) (size c1 c2 : Nat) (payload pad rest : List Nat)
    (hu : utf8Valid key = true)
    (hp : payload.length = size * (c1 * 256 + c2))
    (hpad : pad.length = (4 - (size * (c1 * 256 + c2)) % 4) % 4) :
    parse_custom key (63 :: size :: c1 :: c2 :: (payload ++ pad ++ rest))
      = .ok rest (.Custom key payload) := by
  simp only [parse_custom, unwrapUtf8, hu, if_true, PResult.bind, tagP, beU8, beU16,
    ite_true, eq_self_iff_true]
  rw [List.append_assoc, takeP_exact payload (pad ++ rest) hp.symm]
  dsimp only
  rw [skipPad_append pad rest hpad]

theorem parse_custom_wrong_tag (key : List Nat) (b : Nat) (rest : List Nat)
    (hu : utf8Valid key = true) (hb : b ≠ 63) :
    parse_custom key (b :: rest) = .err (.error .tag) := by
  simp only [parse_custom, unwrapUtf8, if_pos hu, PResult.bind, tagP, if_neg hb]

/-- C1: the padding law `((L + 3) / 4) * 4 - L` does not hold for every
type key. `parse_shut` with count 1 has payload length L = 4 (already
4-aligned, so the law demands 0 padding bytes), yet the code computes the
padding from `6 * measurements.len()` — contradicting its own
`assert_eq!(size, 4)` — and consumes 2 extra bytes (here the trailing
`9, 9`). `parse_gpsp` additionally requires its two padding bytes to be
zero (`tag(&[0, 0])`), so padding content does affect decode success. -/
theorem shut_gpsp_padding_deviates :
    parse_shut [102, 4, 0, 1, 63, 128, 0, 0, 9, 9]
      = .ok [] (.ShutterSpeed [1065353216])
    ∧ ((4 + 3) / 4) * 4 - 4 = 0
    ∧ parse_gpsp [83, 2, 0, 1, 0, 100, 7, 7] = .err (.error .tag)
    ∧ parse_gpsp [83, 2, 0, 1, 0, 100, 0, 0] = .ok [] (.GPSP 100) :=
  ⟨rfl, rfl, rfl, rfl⟩

/-- C2 counterexample: a unit-string record with size 3, count 1 and
payload `[0x41, 0xB2, 0xB2]` (final byte 0xB2, as the claim requires).
The claim predicts text = the first S−1 = 2 bytes with the trailing 0xB2
replaced, i.e. `"A2"` = `[65, 50]`. The code instead consumes all 3
payload bytes and substitutes the non-trailing 0xB2 as well, decoding
`"A22"` = `[65, 50, 50]`. -/
theorem siun_full_width_substitution_cex :
    parse_siun [99, 3, 0, 1, 65, 178, 178, 0] = .ok [] (.UnitsSI [65, 50, 50])
    ∧ ([65, 50, 50] : List Nat) ≠ [65, 50] :=
  ⟨rfl, by decide⟩

/-- C2 amended: for a unit-string record with element size S and count 1,
the decoder consumes S (= size × count) bytes of text — not S−1 — then
substitutes every byte equal to 0xB2, at any position, with the ASCII
digit '2', and the decoded text is the UTF-8 decoding of the substituted
S bytes; afterwards it skips the padding for length S. -/
theorem siun_decodes_all_bytes_substituted (S : Nat) (payload pad rest : List Nat)
    (hp : payload.length = S)
    (hpad : pad.length = (4 - S % 4) % 4)
    (hv : utf8Valid (payload.map substB2) = true) :
    parse_siun (99 :: S :: 0 :: 1 :: (payload ++ pad ++ rest))
      = .ok rest (.UnitsSI (payload.map substB2)) := by
  simp only [parse_siun, tagP, beU8, beU16, PResult.bind, ite_true, eq_self_iff_true]
  rw [show (0 : Nat) * 256 + 1 = 1 from rfl, Nat.mul_one, List.append_assoc,
    takeP_exact payload (pad ++ rest) hp.symm]
  dsimp only
  simp only [unwrapUtf8, hv, if_true, ite_true, eq_self_iff_true]
  rw [skipPad_append pad rest hpad]

/-- C2 witness: the amended theorem applied at S = 3,
payload `[65, 178, 178]`, one padding byte. -/
theorem siun_decodes_all_bytes_substituted_wit :
    ([65, 178, 178] : List Nat).length = 3
    ∧ ([0] : List Nat).length = (4 - 3 % 4) % 4
    ∧ utf8Valid ([65, 178, 178].map substB2) = true
    ∧ parse_siun [99, 3, 0, 1, 65, 178, 178, 0]
        = .ok [] (.UnitsSI ([65, 178, 178].map substB2)) :=
  ⟨rfl, rfl, by decide,
    siun_decodes_all_bytes_substituted 3 [65, 178, 178] [0] [] rfl rfl (by decide)⟩

/-- C3 counterexample: a device-source record with nested length N = 16
whose sub-buffer holds one complete 12-byte child plus 4 extra bytes.
Decoding fails — but with the hard `Failure(Tag)` raised while trying to
decode the 4 extra bytes as another record, not with any trailing-data
error, and not via the trailing-bytes assertion (the result is not the
panic outcome `.abort`): the sequence decoder never returns a non-empty
remainder, so the code's trailing check cannot fire. -/
theorem devc_inexact_subbuffer_cex :
    parse_devcF (parserCore (parse_blockF 2) 2)
        [0, 1, 0, 16, 84, 83, 77, 80, 76, 4, 0, 1, 0, 0, 0, 100, 0, 0, 0, 0]
      = .err (.failure .tag)
    ∧ (PResult.err (PErr.failure .tag) : PResult Block) ≠ .abort :=
  ⟨rfl, fun h => nomatch h⟩

/-- C3 amended: decoding a grouping record (device-source or stream)
succeeds only if the recursive record-sequence decode consumes the N-byte
sub-buffer exactly and returns the children, which become the container's
payload in order; content that does not tile the sub-buffer exactly makes
the decode fail, but the failure arises inside the failing child decode
(insufficient data, unknown type, mismatch), not from a dedicated
trailing-data check — the code's trailing-bytes assertion is unreachable
on the success path because the sequence decoder only returns with an
empty remainder. -/
theorem container_success_consumes_subbuffer_exactly :
    (∀ (pseq : List Nat → PResult (List Block)) (size c1 c2 : Nat)
        (rest rest' : List Nat) (b : Block),
        parse_devcF pseq (0 :: size :: c1 :: c2 :: rest) = .ok rest' b →
        ∃ bs, b = Block.DeviceSource bs
          ∧ pseq (rest.take (size * (c1 * 256 + c2))) = .ok [] bs
          ∧ rest' = rest.drop (size * (c1 * 256 + c2)))
    ∧ (∀ (pseq : List Nat → PResult (List Block)) (size c1 c2 : Nat)
        (rest rest' : List Nat) (b : Block),
        parse_strmF pseq (0 :: size :: c1 :: c2 :: rest) = .ok rest' b →
        ∃ bs, b = Block.Stream bs
          ∧ pseq (rest.take (size * (c1 * 256 + c2))) = .ok [] bs
          ∧ rest' = rest.drop (size * (c1 * 256 + c2))) := by
  constructor <;>
  · intro pseq size c1 c2 rest rest' b h
    simp only [parse_devcF, parse_strmF, tagP, beU8, beU16, PResult.bind, ite_true,
      eq_self_iff_true] at h
    cases ht : takeP (size * (c1 * 256 + c2)) rest with
    | ok inp bb =>
        rw [ht] at h
        dsimp only at h
        obtain ⟨hvv, hrr, _⟩ := takeP_ok ht
        cases hps : pseq bb with
        | ok tr sb =>
            rw [hps] at h
            dsimp only at h
            by_cases htr : tr = []
            · rw [if_pos htr] at h
              cases h
              subst htr
              exact ⟨sb, rfl, hvv ▸ hps, hrr⟩
            · rw [if_neg htr] at h
              cases h
        | err e => rw [hps] at h; cases h
        | abort => rw [hps] at h; cases h
        | fuel => rw [hps] at h; cases h
    | err e => rw [ht] at h; cases h
    | abort => rw [ht] at h; cases h
    | fuel => rw [ht] at h; cases h

/-- C3 witness: the amended theorem applied to a device-source record
whose 12-byte sub-buffer is exactly one total-samples child. -/
theorem container_success_consumes_subbuffer_exactly_wit :
    parse_devcF (parserCore (parse_blockF 1) 1)
        [0, 1, 0, 12, 84, 83, 77, 80, 76, 4, 0, 1, 0, 0, 0, 100]
      = .ok [] (.DeviceSource [.TotalSamples 100])
    ∧ ∃ bs, Block.DeviceSource [Block.TotalSamples 100] = Block.DeviceSource bs
        ∧ parserCore (parse_blockF 1) 1
            (([84, 83, 77, 80, 76, 4, 0, 1, 0, 0, 0, 100] : List Nat).take
              (1 * (0 * 256 + 12)))
          = .ok [] bs
        ∧ ([] : List Nat)
            = ([84, 83, 77, 80, 76, 4, 0, 1, 0, 0, 0, 100] : List Nat).drop
              (1 * (0 * 256 + 12)) :=
  ⟨rfl, container_success_consumes_subbuffer_exactly.1
    (parserCore (parse_blockF 1) 1) 1 0 12
    [84, 83, 77, 80, 76, 4, 0, 1, 0, 0, 0, 100] []
    (.DeviceSource [.TotalSamples 100]) rfl⟩

/-- C4 counterexample: a device-name record whose 1-byte payload `0xFF`
is not valid UTF-8. The decode outcome is the panic `.abort` (from
`std::str::from_utf8(..).unwrap()`), which is none of the typed error
outcomes — there is no `InvalidText` error returned to the caller. -/
theorem dvnm_invalid_utf8_aborts_cex :
    parse_dvnm [99, 1, 0, 1, 255] = .abort
    ∧ (PResult.abort : PResult Block) ≠ .err .incomplete
    ∧ (PResult.abort : PResult Block) ≠ .err (.error .tag)
    ∧ (PResult.abort : PResult Block) ≠ .err (.failure .tag) := by
  refine ⟨rfl, ?_, ?_, ?_⟩ <;> intro h <;> exact PResult.noConfusion h

/-- C4 amended: for text-typed records (shown for the cited device-name
and free-form type-label decoders; the stream-name and orientation
decoders are byte-identical in shape), a payload that is not valid UTF-8
makes the decode panic (process abort via `unwrap()`), not fail with a
typed error. -/
theorem text_invalid_utf8_aborts (size c1 c2 : Nat) (payload rest : List Nat)
    (hp : payload.length = size * (c1 * 256 + c2))
    (hv : utf8Valid payload = false) :
    parse_dvnm (99 :: size :: c1 :: c2 :: (payload ++ rest)) = .abort
    ∧ parse_type (99 :: size :: c1 :: c2 :: (payload ++ rest)) = .abort := by
  constructor <;>
  · simp only [parse_dvnm, parse_type, tagP, beU8, beU16, PResult.bind, ite_true,
      eq_self_iff_true]
    rw [takeP_exact payload rest hp.symm]
    dsimp only
    simp [unwrapUtf8, hv]

/-- C4 witness: the amended theorem applied at payload `[0xFF]`. -/
theorem text_invalid_utf8_aborts_wit :
    ([255] : List Nat).length = 1 * (0 * 256 + 1)
    ∧ utf8Valid [255] = false
    ∧ parse_dvnm [99, 1, 0, 1, 255] = .abort
    ∧ parse_type [99, 1, 0, 1, 255] = .abort :=
  ⟨rfl, rfl, (text_invalid_utf8_aborts 1 0 1 [255] [] rfl rfl).1,
    (text_invalid_utf8_aborts 1 0 1 [255] [] rfl rfl).2⟩

/-- C5 counterexample: a device-id record whose declared element size is
5 instead of the required 4. The decode outcome is the panic `.abort`
(from `assert_eq!(size, 4)`), which is none of the typed error outcomes —
no `FormatMismatch` error is returned for a size mismatch. -/
theorem dvid_size_mismatch_aborts_cex :
    parse_dvid [76, 5, 0, 1, 0, 0, 0, 0] = .abort
    ∧ (PResult.abort : PResult Block) ≠ .err .incomplete
    ∧ (PResult.abort : PResult Block) ≠ .err (.error .tag)
    ∧ (PResult.abort : PResult Block) ≠ .err (.failure .tag) := by
  refine ⟨rfl, ?_, ?_, ?_⟩ <;> intro h <;> exact PResult.noConfusion h

/-- C5 amended: for table-entry type keys (shown for the cited device-id
and temperature decoders), a wrong element type tag fails with a typed
tag-mismatch parse error (`Error(Tag)`, the code's stand-in for
`FormatMismatch`) and produces no Record, while a wrong element size
panics via `assert_eq!` (a process abort) rather than returning any typed
error; neither mismatch is silently coerced. -/
theorem mismatch_tag_errors_size_aborts :
    (∀ (b : Nat) (rest : List Nat), b ≠ 76 →
        parse_dvid (b :: rest) = .err (.error .tag))
    ∧ (∀ (s : Nat) (rest : List Nat), s ≠ 4 →
        parse_dvid (76 :: s :: rest) = .abort)
    ∧ (∀ (b : Nat) (rest : List Nat), b ≠ 102 →
        parse_tmpc (b :: rest) = .err (.error .tag))
    ∧ (∀ (s : Nat) (rest : List Nat), s ≠ 4 →
        parse_tmpc (102 :: s :: rest) = .abort) := by
  refine ⟨?_, ?_, ?_, ?_⟩
  · intro b rest hb
    simp [parse_dvid, tagP, hb, PResult.bind]
  · intro s rest hs
    simp [parse_dvid, tagP, beU8, assertEqP, hs, PResult.bind]
  · intro b rest hb
    simp [parse_tmpc, tagP, hb, PResult.bind]
  · intro s rest hs
    simp [parse_tmpc, tagP, beU8, assertEqP, hs, PResult.bind]

/-- C5 witness: the amended theorem applied at a wrong tag byte (77) and
a wrong size byte (5) for both decoders. -/
theorem mismatch_tag_errors_size_aborts_wit :
    (77 : Nat) ≠ 76 ∧ (5 : Nat) ≠ 4 ∧ (77 : Nat) ≠ 102
    ∧ parse_dvid [77, 4, 0, 1] = .err (.error .tag)
    ∧ parse_dvid [76, 5, 0, 1] = .abort
    ∧ parse_tmpc [77, 4, 0, 1] = .err (.error .tag)
    ∧ parse_tmpc [102, 5, 0, 1] = .abort :=
  ⟨by decide, by decide, by decide,
    mismatch_tag_errors_size_aborts.1 77 [4, 0, 1] (by decide),
    mismatch_tag_errors_size_aborts.2.1 5 [0, 1] (by decide),
    mismatch_tag_errors_size_aborts.2.2.1 77 [4, 0, 1] (by decide),
    mismatch_tag_errors_size_aborts.2.2.2 5 [0, 1] (by decide)⟩

/-- C6: the scaling-factor decoder branches on its element type tag and
has exactly two success shapes: with the `'s'` tag it decodes one signed
16-bit value (size 2, count 1 enforced, 2 padding bytes skipped), and
with the `'l'` tag it decodes a list of count signed 32-bit big-endian
values (size 4 enforced); any other tag byte hits the `panic!` arm. -/
theorem scal_two_shapes :
    (∀ (b0 b1 p0 p1 : Nat) (rest : List Nat),
        parse_scal (115 :: 2 :: 0 :: 1 :: b0 :: b1 :: p0 :: p1 :: rest)
          = .ok rest (.ScalingFactorS (toI16 (b0 * 256 + b1))))
    ∧ (∀ (c1 c2 : Nat) (payload rest : List Nat),
        payload.length = 4 * (c1 * 256 + c2) →
        parse_scal (108 :: 4 :: c1 :: c2 :: (payload ++ rest))
          = .ok rest (.ScalingFactorL (i32ListOf payload)))
    ∧ (∀ (b : Nat) (rest : List Nat), b ≠ 115 → b ≠ 108 →
        parse_scal (b :: rest) = .abort) := by
  refine ⟨?_, ?_, ?_⟩
  · intro b0 b1 p0 p1 rest
    simp [parse_scal, takeP, tagP, beU8, beU16, beI16, assertEqP, PResult.bind]
  · intro c1 c2 payload rest hp
    simp only [parse_scal, takeP, beU8, beU16, assertEqP, PResult.bind, ite_true,
      eq_self_iff_true, List.cons.injEq, and_true]
    rw [if_neg (by decide : ¬((108 : Nat) = 115))]
    rw [readI32s_append payload rest hp]
  · intro b rest hb hl
    simp [parse_scal, takeP, PResult.bind, hb, hl]

/-- C6 witness: the theorem's three parts applied at concrete records:
tag `'s'` value 5, tag `'l'` with one element 7, and the unexpected tag
byte 120. -/
theorem scal_two_shapes_wit :
    parse_scal [115, 2, 0, 1, 0, 5, 0, 0] = .ok [] (.ScalingFactorS (toI16 (0 * 256 + 5)))
    ∧ ([0, 0, 0, 7] : List Nat).length = 4 * (0 * 256 + 1)
    ∧ parse_scal [108, 4, 0, 1, 0, 0, 0, 7] = .ok [] (.ScalingFactorL (i32ListOf [0, 0, 0, 7]))
    ∧ (120 : Nat) ≠ 115 ∧ (120 : Nat) ≠ 108
    ∧ parse_scal [120] = .abort :=
  ⟨scal_two_shapes.1 0 5 0 0 [], rfl,
    scal_two_shapes.2.1 0 1 [0, 0, 0, 7] [] rfl,
    by decide, by decide,
    scal_two_shapes.2.2 120 [] (by decide) (by decide)⟩

/-- C7 counterexample: an unknown type key whose four bytes
`[0xFF, 0xFF, 0xFF, 0xFF]` are not valid UTF-8. `parse_custom` panics in
`std::str::from_utf8(type_name).unwrap()` before the tag byte is
examined, so with the custom-marker tag `'?'` the decode does not
succeed with a custom Record, and with a non-`'?'` tag it does not fail
with the hard `Failure(Tag)` (`UnknownBlockType`) — both outcomes are the
panic `.abort`, refuting the claim's "any type key with no table
entry". -/
theorem unknown_key_not_utf8_aborts_cex :
    parse_blockF 1 [255, 255, 255, 255, 63, 1, 0, 3, 7, 8, 9, 0] = .abort
    ∧ (PResult.abort : PResult Block) ≠ .ok [] (.Custom [255, 255, 255, 255] [7, 8, 9])
    ∧ parse_blockF 1 [255, 255, 255, 255, 99, 1, 0, 3] = .abort
    ∧ (PResult.abort : PResult Block) ≠ .err (.failure .tag) := by
  refine ⟨rfl, ?_, rfl, ?_⟩ <;> intro h <;> exact PResult.noConfusion h

/-- C7 amended: for a type key with no table entry *whose four key bytes
are valid UTF-8*, if the element type tag is the custom marker `'?'` the
decode succeeds with an opaque custom Record labelled with the literal
key and holding exactly size × count payload bytes, with padding skipped
to the next 4-byte boundary; if the tag is not `'?'`, the decode fails
with the hard failure the fallback arm raises (`Failure(Tag)`, the
code's `UnknownBlockType` condition) — not a skip-and-continue. If the
unknown key is not valid UTF-8, the decode instead panics in
`from_utf8(type_name).unwrap()` before the tag is examined, whatever the
tag byte is. -/
theorem unknown_key_custom_or_hard_failure :
    (∀ (n : Nat) (key : List Nat) (size c1 c2 : Nat) (payload pad rest : List Nat),
        key.length = 4 → knownKey key = false → utf8Valid key = true →
        payload.length = size * (c1 * 256 + c2) →
        pad.length = (4 - (size * (c1 * 256 + c2)) % 4) % 4 →
        parse_blockF (n + 1) (key ++ 63 :: size :: c1 :: c2 :: (payload ++ pad ++ rest))
          = .ok rest (.Custom key payload))
    ∧ (∀ (n : Nat) (key : List Nat) (b : Nat) (rest : List Nat),
        key.length = 4 → knownKey key = false → utf8Valid key = true → b ≠ 63 →
        parse_blockF (n + 1) (key ++ b :: rest) = .err (.failure .tag))
    ∧ (∀ (n : Nat) (key rest : List Nat),
        key.length = 4 → knownKey key = false → utf8Valid key = false →
        parse_blockF (n + 1) (key ++ rest) = .abort) := by
  refine ⟨?_, ?_, ?_⟩
  · intro n key size c1 c2 payload pad rest h4 hk hu hp hpad
    rw [parse_blockF_unknown n key _ h4 hk]
    unfold fallbackArm
    rw [parse_custom_ok key size c1 c2 payload pad rest hu hp hpad]
  · intro n key b rest h4 hk hu hb
    rw [parse_blockF_unknown n key _ h4 hk]
    unfold fallbackArm
    rw [parse_custom_wrong_tag key b rest hu hb]
  · intro n key rest h4 hk hu
    rw [parse_blockF_unknown n key rest h4 hk]
    unfold fallbackArm
    simp [parse_custom, unwrapUtf8, hu, PResult.bind]

/-- C7 witness: the theorem applied at the spec's scenario — key "ABCD",
tag `'?'`, size 1, count 3, payload `[7, 8, 9]`, one padding byte — at
the same key with the non-custom tag byte 99, and at the non-UTF-8 key
`[0xFF, 0xFF, 0xFF, 0xFF]`. -/
theorem unknown_key_custom_or_hard_failure_wit :
    ([65, 66, 67, 68] : List Nat).length = 4
    ∧ knownKey [65, 66, 67, 68] = false
    ∧ utf8Valid [65, 66, 67, 68] = true
    ∧ ([7, 8, 9] : List Nat).length = 1 * (0 * 256 + 3)
    ∧ ([0] : List Nat).length = (4 - (1 * (0 * 256 + 3)) % 4) % 4
    ∧ (99 : Nat) ≠ 63
    ∧ knownKey [255, 255, 255, 255] = false
    ∧ utf8Valid [255, 255, 255, 255] = false
    ∧ parse_blockF 1 [65, 66, 67, 68, 63, 1, 0, 3, 7, 8, 9, 0]
        = .ok [] (.Custom [65, 66, 67, 68] [7, 8, 9])
    ∧ parse_blockF 1 [65, 66, 67, 68, 99, 1, 0, 3] = .err (.failure .tag)
    ∧ parse_blockF 1 [255, 255, 255, 255, 63, 1, 0, 3, 7, 8, 9, 0] = .abort :=
  ⟨rfl, by decide, rfl, rfl, rfl, by decide, by decide, rfl,
    unknown_key_custom_or_hard_failure.1 0 [65, 66, 67, 68] 1 0 3 [7, 8, 9] [0] []
      rfl (by decide) rfl rfl rfl,
    unknown_key_custom_or_hard_failure.2.1 0 [65, 66, 67, 68] 99 [1, 0, 3]
      rfl (by decide) rfl (by decide),
    unknown_key_custom_or_hard_failure.2.2 0 [255, 255, 255, 255]
      [63, 1, 0, 3, 7, 8, 9, 0] rfl (by decide) rfl⟩

/-- C8: a total-sample-count record with tag `'L'`, size 4, count 1 and
payload `0x00000064` decodes to `TotalSamples 100`, leaving the remaining
slice (here the sentinel bytes `9, 9`) positioned immediately after the
4 payload bytes. -/
theorem tsmp_scalar_scenario :
    parse_tsmp [76, 4, 0, 1, 0, 0, 0, 100, 9, 9] = .ok [9, 9] (.TotalSamples 100) :=
  rfl

/-- C9: decoding an empty buffer with the record-sequence decoder fails
with `Incomplete` (reading the 4-byte type key of the first record hits
insufficient data) rather than returning an empty list; consequently a
grouping record with declared nested length 0 hands the empty sub-buffer
to the same sequence decoder and fails the same way. -/
theorem empty_input_fails :
    parser [] = .err .incomplete
    ∧ ∀ (n m size c1 c2 : Nat) (rest : List Nat),
        size * (c1 * 256 + c2) = 0 →
        parse_devcF (parserCore (parse_blockF (n + 1)) (m + 1))
            (0 :: size :: c1 :: c2 :: rest)
          = .err .incomplete := by
  refine ⟨rfl, ?_⟩
  intro n m size c1 c2 rest h0
  simp only [parse_devcF, tagP, beU8, beU16, PResult.bind, ite_true, eq_self_iff_true]
  rw [h0]
  dsimp only [takeP]
  simp [parserCore, parse_blockF, takeP, PResult.bind]

/-- C9 witness: the theorem applied at a device-source record with
size 0 and count 0 (nested length 0), plus the empty-buffer case. -/
theorem empty_input_fails_wit :
    (0 : Nat) * (0 * 256 + 0) = 0
    ∧ parse_devcF (parserCore (parse_blockF 1) 1) [0, 0, 0, 0] = .err .incomplete :=
  ⟨rfl, empty_input_fails.2 0 0 0 0 0 [] rfl⟩

/-- C10: whenever the record-sequence decoder returns successfully, the
remaining-input slice it returns is empty — the loop only stops when the
input is exhausted — so a successful sub-decode of a container's
sub-buffer can never leave unconsumed trailing bytes. -/
theorem seq_success_leaves_empty (pb : List Nat → PResult Block) (n : Nat)
    (input rest : List Nat) (bs : List Block)
    (h : parserCore pb n input = .ok rest bs) : rest = [] :=
  parserCore_ok_rest_nil h

/-- C10 witness: the theorem applied to the successful decode of a single
total-samples record. -/
theorem seq_success_leaves_empty_wit :
    parserCore (parse_blockF 1) 1 [84, 83, 77, 80, 76, 4, 0, 1, 0, 0, 0, 100]
      = .ok [] [.TotalSamples 100]
    ∧ ([] : List Nat) = [] :=
  ⟨rfl, seq_success_leaves_empty (parse_blockF 1) 1
    [84, 83, 77, 80, 76, 4, 0, 1, 0, 0, 0, 100] [] [.TotalSamples 100] rfl⟩

end Gpmf
